import Mathlib

/-
  Verification of the Mergington High School activity-signup service
  (a single-module HTTP service over two in-memory dictionaries).

  The embedding below translates the handlers of `src/app.py` into pure
  Lean functions.  The two process-wide dictionaries (`sessions` and
  `activities`) are modelled as association lists with unique keys, and
  each handler is a function from its request inputs and the current
  state to a response (or an HTTP error) together with the next state.
  Python string operations used by the token-extraction code are
  translated over character lists with the same semantics as the
  corresponding Python methods (in particular, `str.replace` replaces
  every non-overlapping occurrence, left to right).
-/

namespace ActivityApp

/-- An activity record, as stored in the in-memory activity database:
description, schedule, capacity, and the ordered participant list. -/
structure Activity where
  description : String
  schedule : String
  max_participants : Nat
  participants : List String
  deriving DecidableEq

/-- An HTTP error, mirroring `HTTPException(status_code=..., detail=...)`. -/
structure HTTPException where
  status_code : Nat
  detail : String
  deriving DecidableEq

/-- The process-wide mutable state: the session store (token to role)
and the activity store (name to record). -/
structure AppState where
  sessions : List (String × String)
  activities : List (String × Activity)
  deriving DecidableEq

/-- A credential record from the teachers file: username, password and
a role field (present in the file, never read by `login`). -/
structure Teacher where
  username : String
  password : String
  role : Option String
  deriving DecidableEq

/-- The successful response of `login`: the fresh token and a message. -/
structure LoginResponse where
  token : String
  message : String
  deriving DecidableEq

/-- Python `s.startswith(p)` over character lists. -/
def startsWithList : List Char → List Char → Bool
  | [], _ => true
  | _ :: _, [] => false
  | p :: ps, c :: cs => p == c && startsWithList ps cs

/-- If `pat` is a prefix of `l`, return the remaining characters of `l`
after that prefix; otherwise `none`. -/
def chopPat : List Char → List Char → Option (List Char)
  | [], l => some l
  | _ :: _, [] => none
  | p :: ps, c :: cs => if p == c then chopPat ps cs else none

/-- Fuel-driven core of Python `s.replace(pat, "")` over character
lists: remove every non-overlapping occurrence of `pat`, scanning left
to right.  Each step consumes at least one character, so fuel equal to
the length of the list suffices. -/
def removeOccFuel (pat : List Char) : Nat → List Char → List Char
  | 0, rest => rest
  | _ + 1, [] => []
  | fuel + 1, c :: cs =>
    if pat.isEmpty then c :: cs
    else
      match chopPat pat (c :: cs) with
      | some rest => removeOccFuel pat fuel rest
      | none => c :: removeOccFuel pat fuel cs

/-- Python `s.replace(pat, "")` over character lists (for nonempty
`pat`; with an empty pattern and empty replacement Python also returns
the string unchanged). -/
def removeAllOcc (pat l : List Char) : List Char :=
  removeOccFuel pat l.length l

/-- Token extraction shared by `verify_teacher_session` and `logout`:
`authorization.replace(BEARER, "") if authorization.startswith(BEARER) else authorization`
where `BEARER` is the eight-byte string `Bearer ` with a trailing
space.  Note that Python `str.replace` removes every occurrence of the
pattern, not only the leading one. -/
def extractToken (authorization : String) : String :=
  if startsWithList ("Bearer ".toList) authorization.toList then
    String.mk (removeAllOcc ("Bearer ".toList) authorization.toList)
  else authorization

/-- Python dictionary assignment `d[k] = v` on an association list with
unique keys: update the entry in place if the key is present, append a
new entry otherwise. -/
def dictSet (k : String) (v : α) : List (String × α) → List (String × α)
  | [] => [(k, v)]
  | p :: d => if p.1 == k then (k, v) :: d else p :: dictSet k v d

/-- Python dictionary deletion `del d[k]` on an association list with
unique keys: drop the first entry with the given key. -/
def dictDel (k : String) : List (String × α) → List (String × α)
  | [] => []
  | p :: d => if p.1 == k then d else p :: dictDel k d

/-- Translation of `verify_teacher_session`: false for an absent or
empty authorization value (Python `if not authorization`), otherwise
true exactly when the extracted token is a key of the session store
whose stored role is the string `teacher`. -/
def verify_teacher_session (authorization : Option String)
    (sessions : List (String × String)) : Bool :=
  match authorization with
  | none => false
  | some a =>
    if a == "" then false
    else
      let token := extractToken a
      sessions.lookup token == some "teacher"

/-- Translation of `login`.  The credential list read from the teachers
file and the freshly generated random token are parameters; the body is
the linear scan of `app.py`: succeed on the first record whose username
and password both equal the inputs, store the new token with role
`teacher`, otherwise raise 401. -/
def login (username password : String) (teachers : List Teacher)
    (newToken : String) (st : AppState) :
    Except HTTPException LoginResponse × AppState :=
  match teachers.find? (fun t => t.username == username && t.password == password) with
  | some _ =>
      (Except.ok { token := newToken, message := "Login successful" },
       { st with sessions := dictSet newToken "teacher" st.sessions })
  | none =>
      (Except.error { status_code := 401, detail := "Invalid username or password" }, st)

/-- Translation of `logout`: if the authorization value is present and
nonempty, extract the token and delete it from the session store when
present; always answer with the success message. -/
def logout (authorization : Option String) (st : AppState) :
    String × AppState :=
  match authorization with
  | none => ("Logout successful", st)
  | some a =>
    if a == "" then ("Logout successful", st)
    else
      let token := extractToken a
      if (st.sessions.lookup token).isSome then
        ("Logout successful", { st with sessions := dictDel token st.sessions })
      else ("Logout successful", st)

/-- Translation of the `/verify-session` handler: report the result of
`verify_teacher_session`; the state is read, never written. -/
def verify_session (authorization : Option String) (st : AppState) :
    Bool × AppState :=
  (verify_teacher_session authorization st.sessions, st)

/-- Translation of the `/activities` handler: return the catalog. -/
def get_activities (st : AppState) : List (String × Activity) × AppState :=
  (st.activities, st)

/-- Translation of `signup_for_activity`: 403 without a teacher
session, 404 for an unknown activity, 400 when the email is already a
participant, and otherwise append the email at the end of the
participant list. -/
def signup_for_activity (activity_name email : String)
    (authorization : Option String) (st : AppState) :
    Except HTTPException String × AppState :=
  if verify_teacher_session authorization st.sessions = false then
    (Except.error { status_code := 403, detail := "Only teachers can register students" }, st)
  else
    match st.activities.lookup activity_name with
    | none => (Except.error { status_code := 404, detail := "Activity not found" }, st)
    | some activity =>
      if activity.participants.contains email then
        (Except.error { status_code := 400, detail := "Student is already signed up" }, st)
      else
        (Except.ok ("Signed up " ++ email ++ " for " ++ activity_name),
         { st with activities :=
             (dictSet activity_name
               ({ activity with participants := activity.participants ++ [email] })
               st.activities) })

/-- Translation of `unregister_from_activity`: 403 without a teacher
session, 404 for an unknown activity, 400 when the email is not a
participant, and otherwise remove the first matching entry of the
participant list (Python `list.remove`). -/
def unregister_from_activity (activity_name email : String)
    (authorization : Option String) (st : AppState) :
    Except HTTPException String × AppState :=
  if verify_teacher_session authorization st.sessions = false then
    (Except.error { status_code := 403, detail := "Only teachers can unregister students" }, st)
  else
    match st.activities.lookup activity_name with
    | none => (Except.error { status_code := 404, detail := "Activity not found" }, st)
    | some activity =>
      if activity.participants.contains email = false then
        (Except.error { status_code := 400, detail := "Student is not signed up for this activity" }, st)
      else
        (Except.ok ("Unregistered " ++ email ++ " from " ++ activity_name),
         { st with activities :=
             (dictSet activity_name
               ({ activity with participants := activity.participants.erase email })
               st.activities) })

/-- The literal in-memory activity database of `app.py`. -/
def initialActivities : List (String × Activity) :=
  [("Chess Club",
    { description := "Learn strategies and compete in chess tournaments",
      schedule := "Fridays, 3:30 PM - 5:00 PM",
      max_participants := 12,
      participants := ["michael@mergington.edu", "daniel@mergington.edu"] }),
   ("Programming Class",
    { description := "Learn programming fundamentals and build software projects",
      schedule := "Tuesdays and Thursdays, 3:30 PM - 4:30 PM",
      max_participants := 20,
      participants := ["emma@mergington.edu", "sophia@mergington.edu"] }),
   ("Gym Class",
    { description := "Physical education and sports activities",
      schedule := "Mondays, Wednesdays, Fridays, 2:00 PM - 3:00 PM",
      max_participants := 30,
      participants := ["john@mergington.edu", "olivia@mergington.edu"] }),
   ("Soccer Team",
    { description := "Join the school soccer team and compete in matches",
      schedule := "Tuesdays and Thursdays, 4:00 PM - 5:30 PM",
      max_participants := 22,
      participants := ["liam@mergington.edu", "noah@mergington.edu"] }),
   ("Basketball Team",
    { description := "Practice and play basketball with the school team",
      schedule := "Wednesdays and Fridays, 3:30 PM - 5:00 PM",
      max_participants := 15,
      participants := ["ava@mergington.edu", "mia@mergington.edu"] }),
   ("Art Club",
    { description := "Explore your creativity through painting and drawing",
      schedule := "Thursdays, 3:30 PM - 5:00 PM",
      max_participants := 15,
      participants := ["amelia@mergington.edu", "harper@mergington.edu"] }),
   ("Drama Club",
    { description := "Act, direct, and produce plays and performances",
      schedule := "Mondays and Wednesdays, 4:00 PM - 5:30 PM",
      max_participants := 20,
      participants := ["ella@mergington.edu", "scarlett@mergington.edu"] }),
   ("Math Club",
    { description := "Solve challenging problems and participate in math competitions",
      schedule := "Tuesdays, 3:30 PM - 4:30 PM",
      max_participants := 10,
      participants := ["james@mergington.edu", "benjamin@mergington.edu"] }),
   ("Debate Team",
    { description := "Develop public speaking and argumentation skills",
      schedule := "Fridays, 4:00 PM - 5:30 PM",
      max_participants := 12,
      participants := ["charlotte@mergington.edu", "henry@mergington.edu"] })]

/-- The Chess Club record of the initial database, used by concrete
witnesses. -/
def chessClub : Activity :=
  { description := "Learn strategies and compete in chess tournaments",
    schedule := "Fridays, 3:30 PM - 5:00 PM",
    max_participants := 12,
    participants := ["michael@mergington.edu", "daniel@mergington.edu"] }

/-- A concrete state for witnesses: the initial activity database plus
one live teacher session with token `tok123`. -/
def testState : AppState :=
  { sessions := [("tok123", "teacher")], activities := initialActivities }

/-- A small activity that is already over its capacity, used to witness
the absence of a capacity check. -/
def tinyClub : Activity :=
  { description := "A very small club",
    schedule := "Mondays, 3:30 PM - 4:00 PM",
    max_participants := 1,
    participants := ["alice@mergington.edu", "bob@mergington.edu"] }

/-- A concrete state whose single activity is over capacity. -/
def tinyState : AppState :=
  { sessions := [("tok123", "teacher")], activities := [("Tiny Club", tinyClub)] }

/-- A concrete credential list for witnesses. -/
def testTeachers : List Teacher :=
  [{ username := "mrodriguez", password := "art2024", role := some "teacher" }]

/-- A credential list whose single record carries a non-teacher role,
for witnessing that login never reads the role field. -/
def studentTeachers : List Teacher :=
  [{ username := "sam", password := "pw1", role := some "student" }]

/-- A state whose session store maps the empty-string token to role
teacher; no run of the program reaches it (tokens are 32-character hex
strings), but it separates the stated contracts of verification and
logout from what the code does on falsy authorization values. -/
def emptyKeyState : AppState :=
  { sessions := [("", "teacher")], activities := [] }

/-- The invariant of claim C9: every activity record of the store has a
duplicate-free participant list. -/
def NodupParticipants (acts : List (String × Activity)) : Prop :=
  ∀ p ∈ acts, p.2.participants.Nodup

/-- Looking up the key just written by `dictSet` yields the new value. -/
theorem lookup_dictSet_self (k : String) (v : α) (d : List (String × α)) :
    (dictSet k v d).lookup k = some v := by
  induction d with
  | nil => simp [dictSet, List.lookup_cons]
  | cons p d ih =>
    obtain ⟨k1, v1⟩ := p
    by_cases h : k1 = k
    · subst h
      simp [dictSet, List.lookup_cons]
    · have hb : (k1 == k) = false := beq_eq_false_iff_ne.mpr h
      have hb2 : (k == k1) = false := beq_eq_false_iff_ne.mpr (Ne.symm h)
      simp [dictSet, hb, List.lookup_cons, hb2, ih]

/-- `dictSet` does not change the binding of any other key. -/
theorem lookup_dictSet_ne {k k2 : String} (v : α) (d : List (String × α))
    (h : k2 ≠ k) : (dictSet k v d).lookup k2 = d.lookup k2 := by
  have hb0 : (k2 == k) = false := beq_eq_false_iff_ne.mpr h
  induction d with
  | nil => simp [dictSet, List.lookup_cons, hb0]
  | cons p d ih =>
    obtain ⟨k1, v1⟩ := p
    by_cases h1 : k1 = k
    · subst h1
      simp [dictSet, List.lookup_cons, hb0]
    · have hb : (k1 == k) = false := beq_eq_false_iff_ne.mpr h1
      by_cases h2 : k2 = k1
      · subst h2
        simp [dictSet, hb, List.lookup_cons]
      · have hb2 : (k2 == k1) = false := by simp [h2]
        simp [dictSet, hb, List.lookup_cons, hb2, ih]

/-- `dictDel` does not change the binding of any other key. -/
theorem lookup_dictDel_ne {k k2 : String} (d : List (String × α))
    (h : k2 ≠ k) : (dictDel k d).lookup k2 = d.lookup k2 := by
  induction d with
  | nil => simp [dictDel]
  | cons p d ih =>
    obtain ⟨k1, v1⟩ := p
    by_cases h1 : k1 = k
    · subst h1
      have hb2 : (k2 == k1) = false := by simp [h]
      simp [dictDel, List.lookup_cons, hb2]
    · have hb : (k1 == k) = false := by simp [h1]
      by_cases h2 : k2 = k1
      · subst h2
        simp [dictDel, hb, List.lookup_cons]
      · have hb2 : (k2 == k1) = false := by simp [h2]
        simp [dictDel, hb, List.lookup_cons, hb2, ih]

/-- On a store with unique keys, deleting a key removes its binding. -/
theorem lookup_dictDel_self {k : String} (d : List (String × α))
    (hnd : (d.map Prod.fst).Nodup) : (dictDel k d).lookup k = none := by
  induction d with
  | nil => simp [dictDel]
  | cons p d ih =>
    obtain ⟨k1, v1⟩ := p
    simp only [List.map_cons, List.nodup_cons] at hnd
    by_cases h1 : k1 = k
    · subst h1
      have hdel : dictDel k1 ((k1, v1) :: d) = d := by simp [dictDel]
      rw [hdel, List.lookup_eq_none_iff]
      intro q hq
      have hm : q.1 ∈ d.map Prod.fst := List.mem_map_of_mem Prod.fst hq
      exact bne_iff_ne.mpr (fun he => hnd.1 (he ▸ hm))
    · have hb : (k1 == k) = false := beq_eq_false_iff_ne.mpr h1
      have hb2 : (k == k1) = false := beq_eq_false_iff_ne.mpr (Ne.symm h1)
      simp [dictDel, hb, List.lookup_cons, hb2, ih hnd.2]

/-- Writing a key that is absent from the store appends the new entry
at the end (Python dictionaries preserve insertion order). -/
theorem dictSet_append_of_fresh {k : String} {v : α} {d : List (String × α)}
    (h : d.lookup k = none) : dictSet k v d = d ++ [(k, v)] := by
  induction d with
  | nil => simp [dictSet]
  | cons p d ih =>
    obtain ⟨k1, v1⟩ := p
    rw [List.lookup_cons] at h
    by_cases h1 : k = k1
    · simp [h1] at h
    · have hb2 : (k == k1) = false := beq_eq_false_iff_ne.mpr h1
      have hb : (k1 == k) = false := beq_eq_false_iff_ne.mpr (Ne.symm h1)
      rw [hb2] at h
      simp [dictSet, hb, ih h]

/-- Every entry of `dictSet k v d` is the new entry or an old one. -/
theorem mem_dictSet {p : String × α} {k : String} {v : α}
    {d : List (String × α)} (h : p ∈ dictSet k v d) : p = (k, v) ∨ p ∈ d := by
  induction d with
  | nil => simpa [dictSet] using h
  | cons q d ih =>
    by_cases h1 : q.1 = k
    · simp only [dictSet, h1, beq_self_eq_true, if_true, List.mem_cons] at h
      rcases h with h | h
      · exact Or.inl h
      · exact Or.inr (List.mem_cons_of_mem q h)
    · have hb : (q.1 == k) = false := by simp [h1]
      simp only [dictSet, hb, Bool.false_eq_true, if_false, List.mem_cons] at h
      rcases h with h | h
      · exact Or.inr (h ▸ List.mem_cons_self q d)
      · rcases ih h with h2 | h2
        · exact Or.inl h2
        · exact Or.inr (List.mem_cons_of_mem q h2)

/-- A successful lookup exhibits a store entry. -/
theorem lookup_mem {k : String} {v : α} {d : List (String × α)}
    (h : d.lookup k = some v) : (k, v) ∈ d := by
  induction d with
  | nil => simp [List.lookup] at h
  | cons p d ih =>
    obtain ⟨k1, v1⟩ := p
    rw [List.lookup_cons] at h
    by_cases h1 : k = k1
    · subst h1
      simp at h
      simp [h]
    · have hb2 : (k == k1) = false := by simp [h1]
      rw [hb2] at h
      exact List.mem_cons_of_mem _ (ih h)

/-- Removing the email just appended to a duplicate-free participant
list restores the original list. -/
theorem erase_append_singleton {e : String} {l : List String} (h : e ∉ l) :
    (l ++ [e]).erase e = l := by
  rw [List.erase_append_right _ h, List.erase_cons_head, List.append_nil]

/-- Claim C1: signup checks its preconditions in a fixed order and the
first failing one determines the error: without a valid teacher session
the result is 403 with message `Only teachers can register students`,
regardless of whether the activity exists; with a valid session but an
unknown activity name the result is 404; with a valid session and an
existing activity already containing the email the result is 400 with
message `Student is already signed up`; and signing up the same email
twice yields success then 400, the participant list gaining exactly the
one appended entry. -/
theorem C1_signup_precondition_order
    (st : AppState) (name email : String) (auth : Option String) :
    (verify_teacher_session auth st.sessions = false →
      signup_for_activity name email auth st =
        (Except.error { status_code := 403, detail := "Only teachers can register students" }, st)) ∧
    (verify_teacher_session auth st.sessions = true →
      st.activities.lookup name = none →
      signup_for_activity name email auth st =
        (Except.error { status_code := 404, detail := "Activity not found" }, st)) ∧
    (∀ a : Activity, verify_teacher_session auth st.sessions = true →
      st.activities.lookup name = some a →
      email ∈ a.participants →
      signup_for_activity name email auth st =
        (Except.error { status_code := 400, detail := "Student is already signed up" }, st)) ∧
    (∀ a : Activity, verify_teacher_session auth st.sessions = true →
      st.activities.lookup name = some a →
      email ∉ a.participants →
      (signup_for_activity name email auth st).1 =
        Except.ok ("Signed up " ++ email ++ " for " ++ name) ∧
      ((signup_for_activity name email auth st).2).activities.lookup name =
        some ({ a with participants := a.participants ++ [email] }) ∧
      (signup_for_activity name email auth
        ((signup_for_activity name email auth st).2)).1 =
        Except.error { status_code := 400, detail := "Student is already signed up" }) := by
  refine ⟨?_, ?_, ?_, ?_⟩
  · intro hv
    simp [signup_for_activity, hv]
  · intro hv ha
    simp [signup_for_activity, hv, ha]
  · intro a hv ha hmem
    simp [signup_for_activity, hv, ha, hmem]
  · intro a hv ha hmem
    have h1 : signup_for_activity name email auth st =
        (Except.ok ("Signed up " ++ email ++ " for " ++ name),
         { st with activities :=
             (dictSet name ({ a with participants := a.participants ++ [email] })
               st.activities) }) := by
      simp [signup_for_activity, hv, ha, hmem]
    refine ⟨by rw [h1], ?_, ?_⟩
    · rw [h1]
      exact lookup_dictSet_self ..
    · rw [h1]
      have hc2 : (a.participants ++ [email]).contains email = true := by simp
      simp [signup_for_activity, hv, lookup_dictSet_self, hc2]

/-- Concrete witness for C1: on the initial database with a live
teacher session, signing `newkid@mergington.edu` into Chess Club
succeeds, and repeating the same signup yields 400. -/
theorem C1_signup_precondition_order_witness :
    (signup_for_activity "Chess Club" "newkid@mergington.edu" (some "tok123") testState).1 =
      Except.ok ("Signed up " ++ "newkid@mergington.edu" ++ " for " ++ "Chess Club") ∧
    (signup_for_activity "Chess Club" "newkid@mergington.edu" (some "tok123")
      ((signup_for_activity "Chess Club" "newkid@mergington.edu" (some "tok123") testState).2)).1 =
      Except.error { status_code := 400, detail := "Student is already signed up" } := by
  have h := (C1_signup_precondition_order testState "Chess Club" "newkid@mergington.edu"
    (some "tok123")).2.2.2 chessClub (by decide) (by decide) (by decide)
  exact ⟨h.1, h.2.2⟩

/-- Claim C2: for every state, activity present in the store and email
not in its participant list, signup followed by unregister (with a
valid teacher session) leaves the participant list of that activity
exactly equal to its value before the signup, and a second unregister
immediately after fails 400 with message
`Student is not signed up for this activity`. -/
theorem C2_unregister_undoes_signup (st : AppState) (name email : String)
    (auth : Option String) (a : Activity)
    (hv : verify_teacher_session auth st.sessions = true)
    (ha : st.activities.lookup name = some a)
    (hm : email ∉ a.participants) :
    (signup_for_activity name email auth st).1 =
      Except.ok ("Signed up " ++ email ++ " for " ++ name) ∧
    (unregister_from_activity name email auth
        ((signup_for_activity name email auth st).2)).1 =
      Except.ok ("Unregistered " ++ email ++ " from " ++ name) ∧
    ((unregister_from_activity name email auth
        ((signup_for_activity name email auth st).2)).2).activities.lookup name =
      some a ∧
    (unregister_from_activity name email auth
        ((unregister_from_activity name email auth
           ((signup_for_activity name email auth st).2)).2)).1 =
      Except.error { status_code := 400, detail := "Student is not signed up for this activity" } := by
  obtain ⟨desc, sched, maxp, ps⟩ := a
  simp only at hm
  have h1 : signup_for_activity name email auth st =
      (Except.ok ("Signed up " ++ email ++ " for " ++ name),
       { st with activities :=
           (dictSet name (Activity.mk desc sched maxp (ps ++ [email]))
             st.activities) }) := by
    simp [signup_for_activity, hv, ha, hm]
  have herase : (ps ++ [email]).erase email = ps := erase_append_singleton hm
  have ha1 : (dictSet name (Activity.mk desc sched maxp (ps ++ [email]))
      st.activities).lookup name = some (Activity.mk desc sched maxp (ps ++ [email])) :=
    lookup_dictSet_self ..
  have hmem2 : email ∈ ps ++ [email] := by simp
  have h2 : unregister_from_activity name email auth
      ({ st with activities :=
          (dictSet name (Activity.mk desc sched maxp (ps ++ [email])) st.activities) }) =
      (Except.ok ("Unregistered " ++ email ++ " from " ++ name),
       { st with activities :=
           (dictSet name (Activity.mk desc sched maxp ps)
             (dictSet name (Activity.mk desc sched maxp (ps ++ [email])) st.activities)) }) := by
    simp [unregister_from_activity, hv, ha1, hmem2, herase]
  have ha2 : (dictSet name (Activity.mk desc sched maxp ps)
      (dictSet name (Activity.mk desc sched maxp (ps ++ [email])) st.activities)).lookup name =
      some (Activity.mk desc sched maxp ps) := lookup_dictSet_self ..
  refine ⟨by rw [h1], ?_, ?_, ?_⟩
  · rw [h1, h2]
  · rw [h1, h2]
    exact ha2
  · rw [h1, h2]
    simp [unregister_from_activity, hv, ha2, hm]

/-- Concrete witness for C2: on the initial database with a live
teacher session, signing `newkid@mergington.edu` into Chess Club and
then unregistering restores the Chess Club record, and a second
unregister yields 400. -/
theorem C2_unregister_undoes_signup_witness :
    ((unregister_from_activity "Chess Club" "newkid@mergington.edu" (some "tok123")
        ((signup_for_activity "Chess Club" "newkid@mergington.edu" (some "tok123")
          testState).2)).2).activities.lookup "Chess Club" = some chessClub ∧
    (unregister_from_activity "Chess Club" "newkid@mergington.edu" (some "tok123")
        ((unregister_from_activity "Chess Club" "newkid@mergington.edu" (some "tok123")
           ((signup_for_activity "Chess Club" "newkid@mergington.edu" (some "tok123")
             testState).2)).2)).1 =
      Except.error { status_code := 400, detail := "Student is not signed up for this activity" } := by
  have h := C2_unregister_undoes_signup testState "Chess Club" "newkid@mergington.edu"
    (some "tok123") chessClub (by decide) (by decide) (by decide)
  exact ⟨h.2.2.1, h.2.2.2⟩

/-- Claim C3: with a valid teacher session, an existing activity and an
email not yet in its participant list, signup succeeds and appends the
email at the end of the list even when the list already holds at least
`max_participants` entries; moreover neither signup nor unregister ever
compares the participant count with `max_participants`: replacing that
field by an arbitrary value changes neither response. -/
theorem C3_no_capacity_check (st : AppState) (name email : String)
    (auth : Option String) (a : Activity)
    (hv : verify_teacher_session auth st.sessions = true)
    (ha : st.activities.lookup name = some a)
    (hmem : email ∉ a.participants)
    (_hfull : a.max_participants ≤ a.participants.length) :
    (signup_for_activity name email auth st).1 =
      Except.ok ("Signed up " ++ email ++ " for " ++ name) ∧
    ((signup_for_activity name email auth st).2).activities.lookup name =
      some ({ a with participants := a.participants ++ [email] }) ∧
    (∀ m : Nat,
      (signup_for_activity name email auth
        ({ st with activities :=
            (dictSet name ({ a with max_participants := m }) st.activities) })).1 =
        (signup_for_activity name email auth st).1 ∧
      (unregister_from_activity name email auth
        ({ st with activities :=
            (dictSet name ({ a with max_participants := m }) st.activities) })).1 =
        (unregister_from_activity name email auth st).1) := by
  have h1 : signup_for_activity name email auth st =
      (Except.ok ("Signed up " ++ email ++ " for " ++ name),
       { st with activities :=
           (dictSet name ({ a with participants := a.participants ++ [email] })
             st.activities) }) := by
    simp [signup_for_activity, hv, ha, hmem]
  refine ⟨by rw [h1], by rw [h1]; exact lookup_dictSet_self .., ?_⟩
  intro m
  have ham : (dictSet name ({ a with max_participants := m }) st.activities).lookup name =
      some ({ a with max_participants := m }) := lookup_dictSet_self ..
  constructor
  · rw [h1]
    simp [signup_for_activity, hv, ham, hmem]
  · simp [unregister_from_activity, hv, ham, ha, hmem]

/-- Concrete witness for C3: an activity already over its capacity of
one still accepts a further signup. -/
theorem C3_no_capacity_check_witness :
    (signup_for_activity "Tiny Club" "carol@mergington.edu" (some "tok123") tinyState).1 =
      Except.ok ("Signed up " ++ "carol@mergington.edu" ++ " for " ++ "Tiny Club") :=
  (C3_no_capacity_check tinyState "Tiny Club" "carol@mergington.edu" (some "tok123")
    tinyClub (by decide) (by decide) (by decide) (by decide)).1

/-- Claim C4, behavior of the code at the divergence: the token
extraction removes every occurrence of the pattern `Bearer ` (with its
trailing space) whenever the authorization string starts with it, so
`Bearer aBearer b` yields the token `ab` and not `aBearer b`; a string
that merely contains the pattern without starting with it is returned
unchanged, as is a string without the pattern. -/
theorem C4_token_extraction_removes_every_occurrence :
    extractToken "Bearer aBearer b" = "ab" ∧
    extractToken "Bearer aBearer b" ≠ "aBearer b" ∧
    extractToken "xBearer y" = "xBearer y" ∧
    extractToken "Bearer tok123" = "tok123" ∧
    extractToken "tok123" = "tok123" := by decide

/-- Claim C5 counterexample: with the authorization value present but
equal to the empty string, and a session store mapping the empty-string
token to role teacher, the derived token is a key of the store with
role teacher, yet session verification returns false — refuting the
stated equivalence (the code returns early on any falsy authorization
value before consulting the store). -/
theorem C5_counterexample :
    ¬ (verify_teacher_session (some "") [("", "teacher")] = true ↔
       List.lookup (extractToken "") [("", "teacher")] = some "teacher") := by decide

/-- Claim C5 (amended): session verification is a pure query: the
verify endpoint leaves the state unchanged and reports exactly
`verify_teacher_session`; for a present nonempty authorization value it
returns true iff the derived token is a key of the session store whose
stored role equals `teacher` — hence false for every token not in the
store; for an absent or empty authorization value it returns false
regardless of the store contents. -/
theorem C5_verify_is_pure_store_query (auth : Option String) (st : AppState) :
    (verify_session auth st).2 = st ∧
    (verify_session auth st).1 = verify_teacher_session auth st.sessions ∧
    (∀ a : String, auth = some a → a ≠ "" →
      (verify_teacher_session auth st.sessions = true ↔
        st.sessions.lookup (extractToken a) = some "teacher")) ∧
    verify_teacher_session none st.sessions = false ∧
    verify_teacher_session (some "") st.sessions = false := by
  refine ⟨rfl, rfl, ?_, rfl, ?_⟩
  · rintro a rfl hne
    have hb : (a == "") = false := beq_eq_false_iff_ne.mpr hne
    simp [verify_teacher_session, hb]
  · simp [verify_teacher_session]

/-- Concrete witness for C5: with a live session for `tok123`, a
bearer-formatted authorization value verifies, and the equivalence with
the store lookup holds at that input. -/
theorem C5_verify_is_pure_store_query_witness :
    (verify_teacher_session (some "Bearer tok123") testState.sessions = true ↔
      testState.sessions.lookup (extractToken "Bearer tok123") = some "teacher") ∧
    verify_teacher_session (some "Bearer tok123") testState.sessions = true :=
  ⟨(C5_verify_is_pure_store_query (some "Bearer tok123") testState).2.2.1
      "Bearer tok123" rfl (by decide),
   by decide⟩

/-- Claim C6: login scans the credential list for a record matching
both username and password exactly; on a match it answers with the
fresh token and the success message, touches only the session store,
stores the token with role `teacher`, and — when the token is fresh —
appends exactly one new entry; when no record matches it fails 401 with
message `Invalid username or password` and the state is unchanged. -/
theorem C6_login_scan (username password newToken : String)
    (teachers : List Teacher) (st : AppState) :
    ((∃ t ∈ teachers, t.username = username ∧ t.password = password) →
      (login username password teachers newToken st).1 =
        Except.ok { token := newToken, message := "Login successful" } ∧
      ((login username password teachers newToken st).2).activities = st.activities ∧
      ((login username password teachers newToken st).2).sessions.lookup newToken =
        some "teacher" ∧
      (st.sessions.lookup newToken = none →
        ((login username password teachers newToken st).2).sessions =
          st.sessions ++ [(newToken, "teacher")])) ∧
    ((∀ t ∈ teachers, ¬ (t.username = username ∧ t.password = password)) →
      login username password teachers newToken st =
        (Except.error { status_code := 401, detail := "Invalid username or password" }, st)) := by
  constructor
  · intro hex
    have hfind : (teachers.find?
        (fun t => t.username == username && t.password == password)).isSome := by
      rw [List.find?_isSome]
      obtain ⟨t, ht, h1, h2⟩ := hex
      exact ⟨t, ht, by simp [h1, h2]⟩
    obtain ⟨t0, hfeq⟩ := Option.isSome_iff_exists.mp hfind
    refine ⟨by simp [login, hfeq], by simp [login, hfeq], ?_, ?_⟩
    · simp only [login, hfeq]
      exact lookup_dictSet_self ..
    · intro hfresh
      simp only [login, hfeq]
      exact dictSet_append_of_fresh hfresh
  · intro hall
    have hfind : teachers.find?
        (fun t => t.username == username && t.password == password) = none := by
      rw [List.find?_eq_none]
      intro t ht
      simpa using hall t ht
    simp [login, hfind]

/-- Concrete witness for C6: the matching credentials log in with the
fresh token; a wrong password fails 401 and leaves the state alone. -/
theorem C6_login_scan_witness :
    (login "mrodriguez" "art2024" testTeachers "newtok" testState).1 =
      Except.ok { token := "newtok", message := "Login successful" } ∧
    login "mrodriguez" "wrongpw" testTeachers "newtok" testState =
      (Except.error { status_code := 401, detail := "Invalid username or password" },
       testState) :=
  ⟨((C6_login_scan "mrodriguez" "art2024" "newtok" testTeachers testState).1
      (by decide)).1,
   (C6_login_scan "mrodriguez" "wrongpw" "newtok" testTeachers testState).2 (by decide)⟩

/-- Claim C7 counterexample: with the authorization value present but
equal to the empty string and a session store mapping the empty-string
token to role teacher, logout still answers success but does not remove
the session of the derived token (the code skips deletion for any falsy
authorization value), refuting the claim that after logout the derived
token is never in the session store. -/
theorem C7_counterexample :
    (logout (some "") emptyKeyState).1 = "Logout successful" ∧
    ¬ (((logout (some "") emptyKeyState).2).sessions.lookup (extractToken "") = none) := by
  decide

/-- Claim C7 (amended): logout never fails: it always answers the
success message; for a present nonempty authorization value on a store
with unique keys, afterwards the derived token is absent from the
session store while every other session is unchanged; for an absent or
empty authorization value the state is untouched; and logout is
idempotent: running it a second time answers success again and changes
nothing further. -/
theorem C7_logout_never_fails_idempotent (auth : Option String) (st : AppState)
    (hkeys : (st.sessions.map Prod.fst).Nodup) :
    (logout auth st).1 = "Logout successful" ∧
    (∀ a : String, auth = some a → a ≠ "" →
      ((logout auth st).2).sessions.lookup (extractToken a) = none ∧
      (∀ k : String, k ≠ extractToken a →
        ((logout auth st).2).sessions.lookup k = st.sessions.lookup k)) ∧
    ((auth = none ∨ auth = some "") → (logout auth st).2 = st) ∧
    logout auth ((logout auth st).2) = ("Logout successful", (logout auth st).2) := by
  rcases auth with _ | a
  · refine ⟨rfl, ?_, fun _ => rfl, rfl⟩
    rintro a h
    cases h
  · by_cases hemp : a = ""
    · subst hemp
      refine ⟨rfl, ?_, fun _ => rfl, rfl⟩
      rintro a' heq hne
      cases heq
      exact absurd rfl hne
    · have hb : (a == "") = false := beq_eq_false_iff_ne.mpr hemp
      by_cases hs : (st.sessions.lookup (extractToken a)).isSome
      · have h1 : logout (some a) st =
            ("Logout successful",
             { st with sessions := dictDel (extractToken a) st.sessions }) := by
          simp [logout, hb, hs]
        have hgone : (dictDel (extractToken a) st.sessions).lookup (extractToken a) = none :=
          lookup_dictDel_self st.sessions hkeys
        refine ⟨by rw [h1], ?_, ?_, ?_⟩
        · rintro a' heq hne
          cases heq
          refine ⟨by rw [h1]; exact hgone, ?_⟩
          intro k hk
          rw [h1]
          exact lookup_dictDel_ne st.sessions hk
        · rintro (h | h)
          · cases h
          · cases h
            exact absurd rfl hemp
        · rw [h1]
          simp [logout, hb, hgone]
      · have hnone : st.sessions.lookup (extractToken a) = none :=
          Option.not_isSome_iff_eq_none.mp hs
        have h1 : logout (some a) st = ("Logout successful", st) := by
          simp [logout, hb, hnone]
        refine ⟨by rw [h1], ?_, fun _ => by rw [h1], by rw [h1, h1]⟩
        rintro a' heq hne
        cases heq
        exact ⟨by rw [h1]; exact hnone, fun k hk => by rw [h1]⟩

/-- Concrete witness for C7: logging out the live bearer session
answers success and removes exactly that session. -/
theorem C7_logout_never_fails_idempotent_witness :
    (logout (some "Bearer tok123") testState).1 = "Logout successful" ∧
    ((logout (some "Bearer tok123") testState).2).sessions.lookup
      (extractToken "Bearer tok123") = none := by
  have h := C7_logout_never_fails_idempotent (some "Bearer tok123") testState (by decide)
  exact ⟨h.1, (h.2.1 "Bearer tok123" rfl (by decide)).1⟩

/-- Claim C8: every failing signup or unregister is atomic — whenever
the response is an error (403, 404 or 400) the whole state, session
store and activity store alike, is exactly what it was before the
request; in particular a signup rejected for lack of a teacher session
leaves the target participant list unchanged. -/
theorem C8_failing_requests_atomic (st : AppState) (name email : String)
    (auth : Option String) :
    (∀ e : HTTPException,
      (signup_for_activity name email auth st).1 = Except.error e →
      (signup_for_activity name email auth st).2 = st) ∧
    (∀ e : HTTPException,
      (unregister_from_activity name email auth st).1 = Except.error e →
      (unregister_from_activity name email auth st).2 = st) := by
  constructor
  · intro e he
    cases hv : verify_teacher_session auth st.sessions with
    | false => simp [signup_for_activity, hv]
    | true =>
      cases ha : st.activities.lookup name with
      | none => simp [signup_for_activity, hv, ha]
      | some a =>
        cases hc : a.participants.contains email with
        | true =>
          have hmem : email ∈ a.participants := by simpa using hc
          simp [signup_for_activity, hv, ha, hmem]
        | false =>
          have hmem : email ∉ a.participants := by simpa using hc
          simp [signup_for_activity, hv, ha, hmem] at he
  · intro e he
    cases hv : verify_teacher_session auth st.sessions with
    | false => simp [unregister_from_activity, hv]
    | true =>
      cases ha : st.activities.lookup name with
      | none => simp [unregister_from_activity, hv, ha]
      | some a =>
        cases hc : a.participants.contains email with
        | false =>
          have hmem : email ∉ a.participants := by simpa using hc
          simp [unregister_from_activity, hv, ha, hmem]
        | true =>
          have hmem : email ∈ a.participants := by simpa using hc
          simp [unregister_from_activity, hv, ha, hmem] at he

/-- Concrete witness for C8: a signup without any authorization header
fails and leaves the state untouched. -/
theorem C8_failing_requests_atomic_witness :
    (signup_for_activity "Chess Club" "x@mergington.edu" none testState).2 = testState :=
  (C8_failing_requests_atomic testState "Chess Club" "x@mergington.edu" none).1
    { status_code := 403, detail := "Only teachers can register students" } rfl

/-- Appending an email that is not yet a participant keeps the list
duplicate-free. -/
theorem nodup_append_singleton {e : String} {l : List String}
    (hl : l.Nodup) (he : e ∉ l) : (l ++ [e]).Nodup := by
  rw [List.nodup_append]
  refine ⟨hl, List.nodup_singleton e, ?_⟩
  intro x hx hxe
  rw [List.mem_singleton] at hxe
  subst hxe
  exact he hx

/-- Claim C9: every operation preserves duplicate-freeness of all
participant lists — signup appends only after the membership check
rejects duplicates, unregister only removes, and the remaining
operations never write the activity store — and the initial literal
store is duplicate-free, so every reachable state is. -/
theorem C9_participants_nodup_invariant :
    (∀ (st : AppState) (name email : String) (auth : Option String),
      NodupParticipants st.activities →
      NodupParticipants ((signup_for_activity name email auth st).2).activities) ∧
    (∀ (st : AppState) (name email : String) (auth : Option String),
      NodupParticipants st.activities →
      NodupParticipants ((unregister_from_activity name email auth st).2).activities) ∧
    (∀ (username password newToken : String) (teachers : List Teacher) (st : AppState),
      ((login username password teachers newToken st).2).activities = st.activities) ∧
    (∀ (auth : Option String) (st : AppState),
      ((logout auth st).2).activities = st.activities) ∧
    (∀ (auth : Option String) (st : AppState), (verify_session auth st).2 = st) ∧
    (∀ st : AppState, (get_activities st).2 = st) ∧
    NodupParticipants initialActivities := by
  refine ⟨?_, ?_, ?_, ?_, fun _ _ => rfl, fun _ => rfl,
    (by decide : ∀ p ∈ initialActivities, p.2.participants.Nodup)⟩
  · intro st name email auth hN
    cases hv : verify_teacher_session auth st.sessions with
    | false => simpa [signup_for_activity, hv] using hN
    | true =>
      cases ha : st.activities.lookup name with
      | none => simpa [signup_for_activity, hv, ha] using hN
      | some a =>
        cases hc : a.participants.contains email with
        | true =>
          have hmem : email ∈ a.participants := by simpa using hc
          simpa [signup_for_activity, hv, ha, hmem] using hN
        | false =>
          have hmem : email ∉ a.participants := by simpa using hc
          have hstep : ((signup_for_activity name email auth st).2).activities =
              dictSet name ({ a with participants := a.participants ++ [email] })
                st.activities := by
            simp [signup_for_activity, hv, ha, hmem]
          rw [hstep]
          intro p hp
          rcases mem_dictSet hp with hnew | hold
          · have hand : a.participants.Nodup := hN (name, a) (lookup_mem ha)
            rw [hnew]
            exact nodup_append_singleton hand hmem
          · exact hN p hold
  · intro st name email auth hN
    cases hv : verify_teacher_session auth st.sessions with
    | false => simpa [unregister_from_activity, hv] using hN
    | true =>
      cases ha : st.activities.lookup name with
      | none => simpa [unregister_from_activity, hv, ha] using hN
      | some a =>
        cases hc : a.participants.contains email with
        | false =>
          have hmem : email ∉ a.participants := by simpa using hc
          simpa [unregister_from_activity, hv, ha, hmem] using hN
        | true =>
          have hmem : email ∈ a.participants := by simpa using hc
          have hstep : ((unregister_from_activity name email auth st).2).activities =
              dictSet name ({ a with participants := a.participants.erase email })
                st.activities := by
            simp [unregister_from_activity, hv, ha, hmem]
          rw [hstep]
          intro p hp
          rcases mem_dictSet hp with hnew | hold
          · have hand : a.participants.Nodup := hN (name, a) (lookup_mem ha)
            rw [hnew]
            rw [hand.erase_eq_filter email]
            exact hand.filter _
          · exact hN p hold
  · intro username password newToken teachers st
    cases h : teachers.find? (fun t => t.username == username && t.password == password) with
    | none => simp [login, h]
    | some t => simp [login, h]
  · intro auth st
    rcases auth with _ | a
    · rfl
    · simp only [logout]
      split
      · rfl
      · split <;> rfl

/-- Concrete witness for C9: after a successful signup on the initial
database, every participant list is still duplicate-free. -/
theorem C9_participants_nodup_invariant_witness :
    NodupParticipants ((signup_for_activity "Chess Club" "newkid@mergington.edu"
      (some "tok123") testState).2).activities :=
  C9_participants_nodup_invariant.1 testState "Chess Club" "newkid@mergington.edu"
    (some "tok123")
    (by decide : ∀ p ∈ testState.activities, p.2.participants.Nodup)

/-- Claim C10: login never reads the role field of a credential record:
replacing every role in the credential list changes nothing about the
response or the resulting state, and whenever some record matches the
submitted username and password the session created for the fresh token
carries role `teacher` — full teacher privileges — whatever the record
said. -/
theorem C10_login_ignores_credential_role (username password newToken : String)
    (teachers : List Teacher) (st : AppState) :
    (∀ r : Option String,
      login username password (teachers.map (fun t => { t with role := r }))
        newToken st = login username password teachers newToken st) ∧
    (∀ t : Teacher, t ∈ teachers → t.username = username → t.password = password →
      ((login username password teachers newToken st).2).sessions.lookup newToken =
        some "teacher") := by
  constructor
  · intro r
    have hmap : (teachers.map (fun t => { t with role := r })).find?
        (fun t => t.username == username && t.password == password) =
        (teachers.find? (fun t => t.username == username && t.password == password)).map
          (fun t => { t with role := r }) :=
      List.find?_map (fun t => { t with role := r }) teachers
    cases h : teachers.find? (fun t => t.username == username && t.password == password) with
    | none => simp [login, hmap, h]
    | some t => simp [login, hmap, h]
  · intro t ht hu hp
    have hfind : (teachers.find?
        (fun t => t.username == username && t.password == password)).isSome :=
      List.find?_isSome.mpr ⟨t, ht, by simp [hu, hp]⟩
    obtain ⟨t0, hfeq⟩ := Option.isSome_iff_exists.mp hfind
    simp only [login, hfeq]
    exact lookup_dictSet_self ..

/-- Concrete witness for C10: a credential record whose role field says
`student` still logs in to a session stored with role `teacher`. -/
theorem C10_login_ignores_credential_role_witness :
    ((login "sam" "pw1" studentTeachers "newtok" testState).2).sessions.lookup "newtok" =
      some "teacher" :=
  (C10_login_ignores_credential_role "sam" "pw1" "newtok" studentTeachers testState).2
    { username := "sam", password := "pw1", role := some "student" }
    (by decide) rfl rfl

end ActivityApp
